import Mathlib

/-!
# lua-xcb: cookie, connection and event layer

A shallow embedding of `lua_xcb.c` / `lua_xcb.h`.

* The Lua state is a record: the C stack frame of the running function
  (head of the list = top of the stack), the contents of every connection
  and cookie userdata block, the registry's event table, and the trace of
  calls made to code outside this file (libxcb, reply/event push functions,
  `puts`).
* libxcb and the generated protocol modules are external: what they return is
  given by a record of functions `Extern`, each of which may depend on the
  trace so far, so that every transport outcome is covered by quantifying
  over `Extern`.
* A Lua error (`luaL_error`, `luaL_checkudata`, ...) is an outcome
  `Ret.raises` that still carries the state reached when it was raised.
-/

namespace LuaXcb

/-! ## Data model -/

/-- A non-null `xcb_connection_t *`. -/
abbrev xcb_connection_t := Nat

/-- The reply block returned by `xcb_wait_for_reply` (its address). -/
abbrev xcb_reply_t := Nat

/-- The fields of `xcb_generic_error_t` that the code reads (all unsigned). -/
structure xcb_generic_error_t where
  response_type : Nat
  error_code : Nat
  sequence : Nat
  resource_id : Nat
  minor_code : Nat
  major_code : Nat
  full_sequence : Nat
deriving DecidableEq, Repr

/-- The fields of `xcb_generic_event_t` that the code reads, and the rest of
the block as `pad`. -/
structure xcb_generic_event_t where
  response_type : Nat
  sequence : Nat
  full_sequence : Nat
  pad : List Nat
deriving DecidableEq, Repr

/-- Lua values that occur on the stack of this module. A table is held by
value as its list of string-keyed fields: every table this file creates is
fresh and never aliased. -/
inductive LuaValue where
  | nil
  | bool (b : Bool)
  | integer (i : Int)
  | string (s : String)
  | conn (ud : Nat)
  | cookie (ud : Nat)
  | auto_ptr
  | event_func (addr : Nat)
  | table (fields : List (String × LuaValue))

/-- The `push_func` member of a cookie: the address of
`lua_xcb_request_checker`, or of some reply push function of a protocol
module. -/
inductive push_func_t where
  | lua_xcb_request_checker
  | reply_push (addr : Nat)
deriving DecidableEq, Repr

/-- The C struct `lua_xcb_cookie_t`; `push_func = none` is the NULL pointer. -/
structure lua_xcb_cookie_t where
  sequence : Nat
  push_func : Option push_func_t
deriving DecidableEq, Repr

/-- Calls that leave this file, in the order they are made. -/
inductive Call where
  | xcb_request_check (c : xcb_connection_t) (sequence : Nat)
  | xcb_wait_for_reply (c : xcb_connection_t) (sequence : Nat)
  | xcb_discard_reply (c : xcb_connection_t) (sequence : Nat)
  | xcb_disconnect (c : xcb_connection_t)
  | xcb_wait_for_event (c : xcb_connection_t)
  | xcb_poll_for_event (c : xcb_connection_t)
  | xcb_generate_id (c : xcb_connection_t)
  | xcb_flush (c : xcb_connection_t)
  | xcb_get_file_descriptor (c : xcb_connection_t)
  | xcb_connection_has_error (c : xcb_connection_t)
  | xcb_get_setup (c : xcb_connection_t)
  | xcb_connect (displayname : Option String)
  | push_func (f : push_func_t) (reply : Option xcb_reply_t)
  | event_func (addr : Nat) (event : xcb_generic_event_t)
  | lua_xcb_push_setup
  | puts (s : String)
deriving DecidableEq, Repr

/-- The Lua state as far as this module reads and writes it.
`conns ud` is the pointer stored in connection userdata `ud` (`none` = NULL),
`cookies ud` the struct in cookie userdata `ud`, `cookie_env ud` the value
held at index 1 of that cookie's environment table, `next_ud` the next free
userdata block, `event_table k` what the registry's `LUA_XCB_EVENT_TABLE`
holds under key `k`: nothing, or a userdata containing the
`lua_xcb_event_func_t` of that address (lua_xcb.h, line 78). -/
structure lua_State where
  stack : List LuaValue
  conns : Nat → Option xcb_connection_t
  cookies : Nat → lua_xcb_cookie_t
  cookie_env : Nat → LuaValue
  next_ud : Nat
  event_table : Nat → Option Nat
  trace : List Call

/-- What a push function (reply decoder, event decoder, setup decoder) does:
it pushes `vals` (in this order) and returns the count `n`, or raises. -/
inductive PushResult where
  | pushed (vals : List LuaValue) (n : Nat)
  | raised (msg : String)

/-- Code outside `lua_xcb.c`: libxcb, xcb-util, the protocol modules and the
Lua library. Each answer of libxcb or of a push function may depend on the
calls made so far. `xcb_generate_id` returns a `uint32_t`, read modulo
`2 ^ 32`; `xcb_event_get_error_label` returns a `const char *`, `none` being
NULL;
`reply_push addr` is the reply push function at address `addr`, `event_func
addr` the event function at that address; `fmt_ptr` renders `%p`; `str2int` is
Lua's conversion of a string to an integer. -/
structure Extern where
  xcb_request_check : List Call → xcb_connection_t → Nat → Option xcb_generic_error_t
  xcb_wait_for_reply : List Call → xcb_connection_t → Nat →
    Option xcb_reply_t × Option xcb_generic_error_t
  xcb_wait_for_event : List Call → xcb_connection_t → Option xcb_generic_event_t
  xcb_poll_for_event : List Call → xcb_connection_t → Option xcb_generic_event_t
  xcb_generate_id : List Call → xcb_connection_t → Nat
  xcb_flush : List Call → xcb_connection_t → Int
  xcb_get_file_descriptor : List Call → xcb_connection_t → Int
  xcb_connection_has_error : List Call → xcb_connection_t → Int
  xcb_connect : List Call → Option String → Option xcb_connection_t × Int
  xcb_event_get_error_label : Nat → Option String
  reply_push : Nat → List Call → Option xcb_reply_t → PushResult
  event_func : Nat → List Call → xcb_generic_event_t → PushResult
  lua_xcb_push_setup : List Call → xcb_connection_t → PushResult
  fmt_ptr : Option Nat → String
  str2int : String → Option Int
  LUA_REGISTRYINDEX : Int

/-- Outcome of a C function called by Lua: it returns the top `n` stack
slots, or a Lua error unwinds it. Both carry the state reached. -/
inductive Ret where
  | returns (L : lua_State) (n : Nat)
  | raises (L : lua_State) (msg : String)

/-- The state in which the function ended. -/
def Ret.state : Ret → lua_State
  | .returns L _ => L
  | .raises L _ => L

/-- The values handed back to the caller, first result first; `none` when
the function raised. -/
def Ret.values : Ret → Option (List LuaValue)
  | .returns L n => some (L.stack.take n).reverse
  | .raises _ _ => none

/-! ## The Lua C API, as far as it is used -/

/-- Value at an acceptable stack index: positive counts from the bottom,
negative from the top. -/
def index2value (L : lua_State) (index : Int) : Option LuaValue :=
  if 0 < index then L.stack.reverse[index.toNat - 1]?
  else if index < 0 then L.stack[(-index).toNat - 1]?
  else none

/-- The number of slots of the frame. -/
def lua_gettop (L : lua_State) : Int := L.stack.length

/-- Pushes one value. -/
def push (L : lua_State) (v : LuaValue) : lua_State :=
  { L with stack := v :: L.stack }

def lua_pushnil (L : lua_State) : lua_State := push L .nil

def lua_pushboolean (L : lua_State) (b : Bool) : lua_State := push L (.bool b)

/-- Pushes an integer; `lua_Integer` is taken to hold every `uint32_t`. -/
def lua_pushinteger (L : lua_State) (i : Int) : lua_State := push L (.integer i)

/-- Pushes a copy of the C string `s`, or nil when `s` is NULL. -/
def lua_pushstring (L : lua_State) (s : Option String) : lua_State :=
  match s with
  | some s => push L (.string s)
  | none => push L .nil

/-- Pushes the formatted string `s`. -/
def lua_pushfstring (L : lua_State) (s : String) : lua_State := push L (.string s)

def lua_pushliteral (L : lua_State) (s : String) : lua_State := push L (.string s)

/-- Pushes a new empty table. -/
def lua_createtable (L : lua_State) : lua_State := push L (.table [])

/-- Pops `n` values. -/
def lua_pop (L : lua_State) (n : Nat) : lua_State :=
  { L with stack := L.stack.drop n }

/-- Sets the stack top to `n` slots, dropping from the top or filling with nil. -/
def lua_settop (L : lua_State) (n : Nat) : lua_State :=
  { L with stack :=
      List.replicate (n - L.stack.length) LuaValue.nil ++ L.stack.drop (L.stack.length - n) }

/-- Field assignment on a table held by value: `t[k] = v`, where assigning nil
removes the key. -/
def setfield_fields (fields : List (String × LuaValue)) (k : String) (v : LuaValue) :
    List (String × LuaValue) :=
  match v with
  | .nil => fields.filter (fun kv => kv.1 != k)
  | _ => fields.filter (fun kv => kv.1 != k) ++ [(k, v)]

/-- The call `lua_setfield(L, -2, k)`: pops the value on top and stores it
under `k` in the table just below it. The code only makes this call with a
fresh table at index -2. -/
def lua_setfield_m2 (L : lua_State) (k : String) : lua_State :=
  match L.stack with
  | v :: .table fields :: rest =>
    { L with stack := .table (setfield_fields fields k v) :: rest }
  | _ => L

/-- The call `lua_isnil(L, -1)`. -/
def lua_isnil_m1 (L : lua_State) : Bool :=
  match L.stack with
  | .nil :: _ => true
  | _ => false

/-- Appends one external call to the trace. -/
def log (L : lua_State) (c : Call) : lua_State :=
  { L with trace := L.trace ++ [c] }

/-- Runs a push function's effect on the stack; the caller returns its count. -/
def run_push (L : lua_State) (r : PushResult) : Ret :=
  match r with
  | .pushed vals n => .returns { L with stack := vals.reverse ++ L.stack } n
  | .raised msg => .raises L msg

/-! ## lua_xcb.c -/

/-- The text of the error `luaL_checkudata` raises for a wrong argument. -/
def bad_argument (tname : String) : String := "bad argument (" ++ tname ++ " expected)"

def LUA_XCB_CONN_MT : String := "xcb_connection_t *"

def LUA_XCB_COOKIE_MT : String := "lua_xcb_cookie_t"

/-- Modelled from the spec: the macro `XCB_EVENT_RESPONSE_TYPE_MASK` of
xcb_event.h, which is not in the repository; the spec gives the mask as
`0x7F`. -/
def XCB_EVENT_RESPONSE_TYPE_MASK : Nat := 0x7f

/-- The function `new_auto_ptr`: pushes a userdata that frees the block
stored in it when collected. The block itself is not part of the embedding. -/
def new_auto_ptr (L : lua_State) : lua_State := push L .auto_ptr

/-- The function `lua_xcb_push_generic_error`. -/
def lua_xcb_push_generic_error (E : Extern) (L : lua_State) (e : xcb_generic_error_t) :
    lua_State :=
  let L := lua_createtable L
  let L := lua_setfield_m2 (lua_pushinteger L e.response_type) "response_type"
  let L := lua_setfield_m2 (lua_pushinteger L e.error_code) "error_code"
  let L := lua_setfield_m2 (lua_pushinteger L e.sequence) "sequence"
  let L := lua_setfield_m2 (lua_pushinteger L e.resource_id) "resource_id"
  let L := lua_setfield_m2 (lua_pushinteger L e.minor_code) "minor_code"
  let L := lua_setfield_m2 (lua_pushinteger L e.major_code) "major_code"
  let L := lua_setfield_m2 (lua_pushinteger L e.full_sequence) "full_sequence"
  lua_setfield_m2 (lua_pushstring L (E.xcb_event_get_error_label e.error_code)) "error_label"

/-- The call `luaL_checkudata(L, index, LUA_XCB_CONN_MT)`: the connection
userdata block at `index`, or a Lua error. -/
def checkudata_conn (L : lua_State) (index : Int) : Except String Nat :=
  match index2value L index with
  | some (.conn ud) => .ok ud
  | _ => .error (bad_argument LUA_XCB_CONN_MT)

/-- The function `lua_xcb_to_conn`: the pointer stored in the connection
userdata, which may be NULL. -/
def lua_xcb_to_conn (L : lua_State) (index : Int) : Except String (Option xcb_connection_t) :=
  match checkudata_conn L index with
  | .ok ud => .ok (L.conns ud)
  | .error msg => .error msg

/-- The function `lua_xcb_check_conn`. -/
def lua_xcb_check_conn (L : lua_State) (index : Int) : Except String xcb_connection_t :=
  match lua_xcb_to_conn L index with
  | .error msg => .error msg
  | .ok none => .error "Attempt to use NULL xcb_connection_t *."
  | .ok (some c) => .ok c

/-- The function `lua_xcb_to_cookie`: the cookie userdata at `index`. -/
def lua_xcb_to_cookie (L : lua_State) (index : Int) : Except String Nat :=
  match index2value L index with
  | some (.cookie ud) => .ok ud
  | _ => .error (bad_argument LUA_XCB_COOKIE_MT)

/-- The inline function `lua_xcb_cookie_pending` of lua_xcb.h. -/
def lua_xcb_cookie_pending (c : lua_xcb_cookie_t) : Bool :=
  c.push_func != none

/-- Stores `f` in the `push_func` member of cookie `ud`. -/
def set_push_func (L : lua_State) (ud : Nat) (f : Option push_func_t) : lua_State :=
  { L with cookies := Function.update L.cookies ud { L.cookies ud with push_func := f } }

/-- The three calls `lua_getuservalue(L, 1); lua_rawgeti(L, -1, 1);
lua_replace(L, -2);` on cookie `ud` at index 1: they leave entry 1 of the
cookie's environment table on top of the stack. -/
def push_env_conn (L : lua_State) (ud : Nat) : lua_State :=
  push L (L.cookie_env ud)

/-- The function `cookie_gc`, which is both `__gc` and `discard`. -/
def cookie_gc (L : lua_State) : Ret :=
  match lua_xcb_to_cookie L 1 with
  | .error msg => .raises L msg
  | .ok ud =>
    let cookie := L.cookies ud
    if lua_xcb_cookie_pending cookie then
      let L := push_env_conn L ud
      match lua_xcb_to_conn L (-1) with
      | .error msg => .raises L msg
      | .ok c =>
        let L := match c with
          | some c => log L (.xcb_discard_reply c cookie.sequence)
          | none => L
        let L := set_push_func L ud none
        .returns L 0
    else .returns L 0

/-- The function `lua_xcb_request_checker`. -/
def lua_xcb_request_checker (L : lua_State) : Ret :=
  .returns (lua_pushboolean L true) 1

/-- The call through the function pointer `push_func(L, reply)`. -/
def call_push_func (E : Extern) (L : lua_State) (f : push_func_t)
    (reply : Option xcb_reply_t) : Ret :=
  match f with
  | .lua_xcb_request_checker => lua_xcb_request_checker (log L (.push_func f reply))
  | .reply_push addr =>
    run_push (log L (.push_func f reply)) (E.reply_push addr L.trace reply)

/-- The locals of `cookie_wait` in its pending branch: the state, the saved
`push_func`, `*preply` and `error`. -/
structure Claimed where
  L : lua_State
  push_func : push_func_t
  preply : Option xcb_reply_t
  error : Option xcb_generic_error_t

/-- Lines 180-187 of `cookie_wait`, for cookie `ud` with saved `push_func`
on connection `c`: the one transport call, chosen by comparing
`cookie->push_func` with `&lua_xcb_request_checker`. -/
def cookie_wait_transport (E : Extern) (L : lua_State) (ud : Nat) (push_func : push_func_t)
    (c : xcb_connection_t) : Claimed :=
  let cookie := L.cookies ud
  if cookie.push_func = some .lua_xcb_request_checker then
    let error := E.xcb_request_check L.trace c cookie.sequence
    { L := log L (.xcb_request_check c cookie.sequence), push_func := push_func,
      preply := none, error := error }
  else
    let r := E.xcb_wait_for_reply L.trace c cookie.sequence
    { L := log L (.xcb_wait_for_reply c cookie.sequence), push_func := push_func,
      preply := r.1, error := r.2 }

/-- Lines 193-199 of `cookie_wait`: the error is pushed, or the reply is
handed to the saved `push_func`. -/
def cookie_wait_finish (E : Extern) (k : Claimed) : Ret :=
  match k.error with
  | some error =>
    let L := lua_pushnil k.L
    let L := lua_xcb_push_generic_error E L error
    .returns L 2
  | none => call_push_func E k.L k.push_func k.preply

/-- The function `cookie_wait`. The test `lua_xcb_cookie_pending(cookie)`
followed by `push_func = cookie->push_func` is the match on a non-NULL
`push_func`. -/
def cookie_wait (E : Extern) (L : lua_State) : Ret :=
  match lua_xcb_to_cookie L 1 with
  | .error msg => .raises L msg
  | .ok ud =>
    let cookie := L.cookies ud
    let L := new_auto_ptr L
    let L := new_auto_ptr L
    match cookie.push_func with
    | some push_func =>
      let L := push_env_conn L ud
      match lua_xcb_to_conn L (-1) with
      | .error msg => .raises L msg
      | .ok none =>
        let L := lua_pushnil L
        let L := lua_pushliteral L "Attempt to use cookie from a closed display."
        .returns L 2
      | .ok (some c) =>
        let k := cookie_wait_transport E L ud push_func c
        -- line 190: cookie->push_func = NULL
        let k := { k with L := set_push_func k.L ud none }
        cookie_wait_finish E k
    | none =>
      let L := lua_pushnil L
      let L := lua_pushliteral L "Attempt to use a cookie twice."
      .returns L 2

/-- The function `lua_xcb_reset_cookie`. -/
def lua_xcb_reset_cookie (L : lua_State) (index : Int) : Ret :=
  match lua_xcb_to_cookie L index with
  | .error msg => .raises L msg
  | .ok ud => .returns (set_push_func L ud none) 0

/-- The cast `(int) cookie->sequence` of a 32-bit unsigned value. -/
def to_int (n : Nat) : Int :=
  if n % 2 ^ 32 < 2 ^ 31 then (n % 2 ^ 32 : Nat) else ((n % 2 ^ 32 : Nat) : Int) - 2 ^ 32

/-- The function `cookie_tostring`; `%p` is rendered by `fmt_ptr`. -/
def cookie_tostring (E : Extern) (L : lua_State) : Ret :=
  match lua_xcb_to_cookie L 1 with
  | .error msg => .raises L msg
  | .ok ud =>
    let cookie := L.cookies ud
    if lua_xcb_cookie_pending cookie then
      .returns (lua_pushfstring L ("<lua_xcb_cookie_t: " ++ E.fmt_ptr (some ud) ++ "; sequence: "
        ++ toString (to_int cookie.sequence) ++ ">")) 1
    else
      .returns (lua_pushfstring L ("<lua_xcb_cookie_t: " ++ E.fmt_ptr (some ud) ++ "; expired>")) 1

/-- The function `abs_index`. -/
def abs_index (E : Extern) (L : lua_State) (index : Int) : Int :=
  if index > 0 ∨ index < E.LUA_REGISTRYINDEX then index
  else lua_gettop L + index + 1

/-- The function `lua_xcb_new_cookie`: on success the new state, with the
cookie pushed, and the cookie userdata it returns; a Lua error otherwise,
raised before anything is written. -/
def lua_xcb_new_cookie (E : Extern) (L : lua_State) (conn_index : Int) :
    Except String (lua_State × Nat) :=
  let conn_index := abs_index E L conn_index
  match lua_xcb_check_conn L conn_index with
  | .error msg => .error msg
  | .ok _ =>
    let conn := (index2value L conn_index).getD .nil
    let ud := L.next_ud
    let L := { push L (.cookie ud) with next_ud := ud + 1 }
    let L := { L with cookies := Function.update L.cookies ud { sequence := 0, push_func := none } }
    -- env table with the connection at index 1, set as the cookie's environment
    let L := { L with cookie_env := Function.update L.cookie_env ud conn }
    .ok (L, ud)

/-- The function `conn_tostring`. -/
def conn_tostring (E : Extern) (L : lua_State) : Ret :=
  match checkudata_conn L 1 with
  | .error msg => .raises L msg
  | .ok ud =>
    .returns (lua_pushfstring L ("<xcb_connection_t: " ++ E.fmt_ptr (L.conns ud) ++ ">")) 1

/-- The function `conn_is_valid`. -/
def conn_is_valid (L : lua_State) : Ret :=
  match checkudata_conn L 1 with
  | .error msg => .raises L msg
  | .ok ud => .returns (lua_pushboolean L (L.conns ud != none)) 1

/-- The function `conn_gc`, which is both `__gc` and `disconnect`. -/
def conn_gc (L : lua_State) : Ret :=
  match checkudata_conn L 1 with
  | .error msg => .raises L msg
  | .ok ud =>
    match L.conns ud with
    | some c =>
      let L := log L (.puts "GCing conn.")
      let L := log L (.xcb_disconnect c)
      let L := { L with conns := Function.update L.conns ud none }
      .returns L 0
    | none => .returns L 0

/-- The function `conn_flush`. -/
def conn_flush (E : Extern) (L : lua_State) : Ret :=
  match lua_xcb_check_conn L 1 with
  | .error msg => .raises L msg
  | .ok c =>
    let r := E.xcb_flush L.trace c
    .returns (lua_pushinteger (log L (.xcb_flush c)) r) 1

/-- The function `conn_get_file_descriptor`. -/
def conn_get_file_descriptor (E : Extern) (L : lua_State) : Ret :=
  match lua_xcb_check_conn L 1 with
  | .error msg => .raises L msg
  | .ok c =>
    let r := E.xcb_get_file_descriptor L.trace c
    .returns (lua_pushinteger (log L (.xcb_get_file_descriptor c)) r) 1

/-- The function `conn_has_error`. -/
def conn_has_error (E : Extern) (L : lua_State) : Ret :=
  match lua_xcb_check_conn L 1 with
  | .error msg => .raises L msg
  | .ok c =>
    let r := E.xcb_connection_has_error L.trace c
    .returns (lua_pushboolean (log L (.xcb_connection_has_error c)) (r != 0)) 1

/-- The three calls `luaL_newmetatable(L, LUA_XCB_EVENT_TABLE);
lua_rawgeti(L, -1, k); lua_replace(L, -2);`: they leave entry `k` of the
event table on top of the stack. -/
def push_event_table_entry (L : lua_State) (k : Nat) : lua_State :=
  match L.event_table k with
  | some addr => push L (.event_func addr)
  | none => push L .nil

/-- The function `push_event`. -/
def push_event (E : Extern) (L : lua_State) (event : xcb_generic_event_t) : Ret :=
  let L := push_event_table_entry L (event.response_type &&& XCB_EVENT_RESPONSE_TYPE_MASK)
  if lua_isnil_m1 L then
    let L := lua_pop L 1
    let L := lua_createtable L
    let L := lua_setfield_m2 (lua_pushinteger L event.response_type) "response_type"
    let L := lua_setfield_m2 (lua_pushinteger L event.sequence) "sequence"
    let L := lua_setfield_m2 (lua_pushinteger L event.full_sequence) "full_sequence"
    .returns L 1
  else
    match L.stack with
    | .event_func addr :: _ =>
      run_push (log L (.event_func addr event)) (E.event_func addr L.trace event)
    | _ => .raises L "userdata expected"

/-- The two functions `conn_get_event` is called with. -/
inductive event_source where
  | xcb_wait_for_event
  | xcb_poll_for_event
deriving DecidableEq, Repr

/-- The call `f(c)` in `conn_get_event`. -/
def call_event_source (E : Extern) (L : lua_State) (f : event_source) (c : xcb_connection_t) :
    lua_State × Option xcb_generic_event_t :=
  match f with
  | .xcb_wait_for_event => (log L (.xcb_wait_for_event c), E.xcb_wait_for_event L.trace c)
  | .xcb_poll_for_event => (log L (.xcb_poll_for_event c), E.xcb_poll_for_event L.trace c)

/-- The function `conn_get_event`. -/
def conn_get_event (E : Extern) (L : lua_State) (f : event_source) (f_name : String) : Ret :=
  let L := lua_settop L 1
  let L := new_auto_ptr L
  match lua_xcb_check_conn L 1 with
  | .error msg => .raises L msg
  | .ok c =>
    match call_event_source E L f c with
    | (L, none) =>
      let L := lua_pushnil L
      if f = .xcb_poll_for_event then
        .returns L 1
      else
        let L := lua_pushfstring L (f_name ++ " failed.")
        .returns L 2
    | (L, some event) => push_event E L event

/-- The function `conn_wait_for_event`. -/
def conn_wait_for_event (E : Extern) (L : lua_State) : Ret :=
  conn_get_event E L .xcb_wait_for_event "xcb_wait_for_event"

/-- The function `conn_poll_for_event`. -/
def conn_poll_for_event (E : Extern) (L : lua_State) : Ret :=
  conn_get_event E L .xcb_poll_for_event "xcb_poll_for_event"

/-- The call `luaL_optstring(L, 1, NULL)`. -/
def optstring_1 (L : lua_State) : Except String (Option String) :=
  match index2value L 1 with
  | none => .ok none
  | some .nil => .ok none
  | some (.string s) => .ok (some s)
  | some (.integer i) => .ok (some (toString i))
  | some _ => .error "bad argument (string expected)"

/-- The function `connect`. -/
def connect (E : Extern) (L : lua_State) : Ret :=
  match optstring_1 L with
  | .error msg => .raises L msg
  | .ok displayname =>
    let ud := L.next_ud
    let L := { push L (.conn ud) with next_ud := ud + 1 }
    let L := { L with conns := Function.update L.conns ud none }
    let r := E.xcb_connect L.trace displayname
    let L := log L (.xcb_connect displayname)
    let L := { L with conns := Function.update L.conns ud r.1 }
    let fail (L : lua_State) : Ret :=
      .returns (lua_pushliteral (lua_pushnil L)
        "xcb_connect failed (XCB provides no further information)") 2
    match r.1 with
    | none => fail L
    | some c =>
      let e := E.xcb_connection_has_error L.trace c
      let L := log L (.xcb_connection_has_error c)
      if e != 0 then fail L
      else .returns (lua_pushinteger L r.2) 2

/-- The function `conn_generate_id`; `xid` is a `uint32_t`. -/
def conn_generate_id (E : Extern) (L : lua_State) : Ret :=
  match lua_xcb_check_conn L 1 with
  | .error msg => .raises L msg
  | .ok c =>
    let xid : Nat := E.xcb_generate_id L.trace c % 2 ^ 32
    let L := log L (.xcb_generate_id c)
    if xid = 2 ^ 32 - 1 then
      let L := lua_pushnil L
      let L := lua_pushliteral L "xcb_generate_id failed"
      .returns L 2
    else
      .returns (lua_pushinteger L xid) 1

/-- The function `conn_get_setup`. -/
def conn_get_setup (E : Extern) (L : lua_State) : Ret :=
  match lua_xcb_check_conn L 1 with
  | .error msg => .raises L msg
  | .ok c =>
    let L := log L (.xcb_get_setup c)
    let r := E.lua_xcb_push_setup L.trace c
    match run_push (log L .lua_xcb_push_setup) r with
    | .returns L _ => .returns L 1
    | .raises L msg => .raises L msg

/-- The call `luaL_checkinteger(L, 1)`. -/
def checkinteger_1 (E : Extern) (L : lua_State) : Except String Int :=
  match index2value L 1 with
  | some (.integer i) => .ok i
  | some (.string s) =>
    match E.str2int s with
    | some i => .ok i
    | none => .error "bad argument (number expected)"
  | _ => .error "bad argument (number expected)"

/-- The function `response_type`. -/
def response_type (E : Extern) (L : lua_State) : Ret :=
  match checkinteger_1 E L with
  | .ok i => .returns (lua_pushinteger L (Int.land i XCB_EVENT_RESPONSE_TYPE_MASK)) 1
  | .error msg => .raises L msg

/-! ## Calls from Lua -/

/-- Everything in this file that Lua code or a protocol module can call:
the entries of `conn_functions`, `connection_metamethods` and
`cookie_methods`, and the two C entry points that write a cookie. -/
inductive Op where
  | response_type
  | is_valid
  | disconnect
  | flush
  | get_file_descriptor
  | connection_has_error
  | wait_for_event
  | poll_for_event
  | connect
  | generate_id
  | get_setup
  | conn_tostring
  | conn_gc
  | cookie_tostring
  | cookie_gc
  | discard
  | wait
  | lua_xcb_new_cookie (conn_index : Int)
  | lua_xcb_reset_cookie (index : Int)
deriving DecidableEq, Repr

/-- A call of `op` with arguments `args` (first argument first): the
function runs on a fresh frame holding the arguments. -/
def call (E : Extern) (op : Op) (args : List LuaValue) (L : lua_State) : Ret :=
  let L := { L with stack := args.reverse }
  match op with
  | .response_type => response_type E L
  | .is_valid => conn_is_valid L
  | .disconnect => conn_gc L
  | .flush => conn_flush E L
  | .get_file_descriptor => conn_get_file_descriptor E L
  | .connection_has_error => conn_has_error E L
  | .wait_for_event => conn_wait_for_event E L
  | .poll_for_event => conn_poll_for_event E L
  | .connect => connect E L
  | .generate_id => conn_generate_id E L
  | .get_setup => conn_get_setup E L
  | .conn_tostring => conn_tostring E L
  | .conn_gc => conn_gc L
  | .cookie_tostring => cookie_tostring E L
  | .cookie_gc => cookie_gc L
  | .discard => cookie_gc L
  | .wait => cookie_wait E L
  | .lua_xcb_new_cookie conn_index =>
    match lua_xcb_new_cookie E L conn_index with
    | .ok (L, _) => .returns L 1
    | .error msg => .raises L msg
  | .lua_xcb_reset_cookie index => lua_xcb_reset_cookie L index

/-- A run of calls, each on the state the previous one ended in. -/
def run (E : Extern) : List (Op × List LuaValue) → lua_State → lua_State
  | [], L => L
  | (op, args) :: rest, L => run E rest (call E op args L).state

/-! ## Notions used to state the properties -/

/-- The number of `xcb_discard_reply` calls in a trace. -/
def count_discard (t : List Call) : Nat :=
  (t.filter (fun c => match c with | .xcb_discard_reply _ _ => true | _ => false)).length

/-- The number of `xcb_disconnect` calls in a trace. -/
def count_disconnect (t : List Call) : Nat :=
  (t.filter (fun c => match c with | .xcb_disconnect _ => true | _ => false)).length

/-- The seven members of `e`, as integers under their names. -/
def generic_error_numeric_fields (e : xcb_generic_error_t) : List (String × LuaValue) :=
  [("response_type", .integer e.response_type), ("error_code", .integer e.error_code),
    ("sequence", .integer e.sequence), ("resource_id", .integer e.resource_id),
    ("minor_code", .integer e.minor_code), ("major_code", .integer e.major_code),
    ("full_sequence", .integer e.full_sequence)]

/-- The Lua table a decoded `xcb_generic_error_t` is expected to be, given the
label of its error code: the seven members of `e`, and an eighth field
`error_label` when the label is not NULL. -/
def generic_error_table (label : Option String) (e : xcb_generic_error_t) : LuaValue :=
  match label with
  | some s => .table (generic_error_numeric_fields e ++ [("error_label", .string s)])
  | none => .table (generic_error_numeric_fields e)

/-- Going from state `A` to state `B` does not revive handle `ud`: if the
userdata block `ud` exists in `A` and holds NULL, it holds NULL in `B`; and no
block is given back. -/
def keeps_null (ud : Nat) (A B : lua_State) : Prop :=
  (ud < A.next_ud → A.conns ud = none → B.conns ud = none) ∧ A.next_ud ≤ B.next_ud

/-! ## Concrete states used to evaluate the definitions -/

/-- The labels xcb-util has for the core protocol's error codes 0..17; it has
none for any other code. -/
def labelError : List String :=
  ["Success", "BadRequest", "BadValue", "BadWindow", "BadPixmap", "BadAtom", "BadCursor",
   "BadFont", "BadMatch", "BadDrawable", "BadAccess", "BadAlloc", "BadColor", "BadGC",
   "BadIDChoice", "BadName", "BadLength", "BadImplementation"]

/-- A transport on which every request succeeds with an empty answer. -/
def quiet : Extern where
  xcb_request_check := fun _ _ _ => none
  xcb_wait_for_reply := fun _ _ _ => (some 7, none)
  xcb_wait_for_event := fun _ _ => none
  xcb_poll_for_event := fun _ _ => none
  xcb_generate_id := fun _ _ => 42
  xcb_flush := fun _ _ => 1
  xcb_get_file_descriptor := fun _ _ => 3
  xcb_connection_has_error := fun _ _ => 0
  xcb_connect := fun _ _ => (some 100, 0)
  xcb_event_get_error_label := fun code => labelError[code]?
  reply_push := fun _ _ _ => .pushed [.table [("ok", .bool true)]] 1
  event_func := fun _ _ _ => .pushed [.table []] 1
  lua_xcb_push_setup := fun _ _ => .pushed [.table []] 1
  fmt_ptr := fun _ => "0x0"
  str2int := fun _ => none
  LUA_REGISTRYINDEX := -1001000

/-- One connection userdata (block 0) holding pointer `p`, and one cookie
userdata (block 1) of that connection with sequence 5 and `push_func = f`. -/
def sample (p : Option xcb_connection_t) (f : Option push_func_t) : lua_State where
  stack := []
  conns := fun _ => p
  cookies := fun _ => { sequence := 5, push_func := f }
  cookie_env := fun _ => .conn 0
  next_ud := 2
  event_table := fun _ => none
  trace := []

/-- A transport on which every request is rejected, the reply push function
raises, an event is always queued and the id generator is exhausted. -/
def failing : Extern where
  xcb_request_check := fun _ _ seq =>
    some { response_type := 0, error_code := 3, sequence := seq, resource_id := 77,
           minor_code := 0, major_code := 8, full_sequence := seq }
  xcb_wait_for_reply := fun _ _ _ => (some 7, none)
  xcb_wait_for_event := fun _ _ =>
    some { response_type := 0x82, sequence := 4, full_sequence := 4, pad := [] }
  xcb_poll_for_event := fun _ _ =>
    some { response_type := 0x82, sequence := 4, full_sequence := 4, pad := [] }
  xcb_generate_id := fun _ _ => 0xFFFFFFFF
  xcb_flush := fun _ _ => 0
  xcb_get_file_descriptor := fun _ _ => 3
  xcb_connection_has_error := fun _ _ => 1
  xcb_connect := fun _ _ => (none, 0)
  xcb_event_get_error_label := fun code => labelError[code]?
  reply_push := fun _ _ _ => .raised "Missing field: x."
  event_func := fun _ _ _ => .raised "bad event"
  lua_xcb_push_setup := fun _ _ => .raised "bad setup"
  fmt_ptr := fun _ => "0x0"
  str2int := fun _ => none
  LUA_REGISTRYINDEX := -10000

/-- The transport `failing`, except that every request is rejected with the
extension error code 200, for which there is no label. -/
def failing_extension : Extern :=
  { failing with
    xcb_request_check := fun _ _ seq =>
      some { response_type := 0, error_code := 200, sequence := seq, resource_id := 77,
             minor_code := 0, major_code := 130, full_sequence := seq } }

/-! ## Shared lemmas -/

/-- The function `lua_xcb_push_generic_error` pushes one table: the seven members
of the error, and its label unless that is NULL. -/
theorem lua_xcb_push_generic_error_eq (E : Extern) (L : lua_State) (e : xcb_generic_error_t) :
    lua_xcb_push_generic_error E L e
      = push L (generic_error_table (E.xcb_event_get_error_label e.error_code) e) := by
  cases h : E.xcb_event_get_error_label e.error_code <;>
    simp [lua_xcb_push_generic_error, h, lua_createtable, push, lua_pushinteger,
      lua_setfield_m2, lua_pushstring, setfield_fields, generic_error_table,
      generic_error_numeric_fields]


theorem run_push_values (L : lua_State) (vals : List LuaValue) (n : Nat)
    (h : n ≤ vals.length) :
    (run_push L (.pushed vals n)).values = some (vals.drop (vals.length - n)) := by
  simp only [run_push, Ret.values]
  rw [List.take_append_of_le_length (by simpa using h)]
  rw [List.take_reverse]
  simp

theorem run_push_cookies (L : lua_State) (r : PushResult) :
    (run_push L r).state.cookies = L.cookies := by
  cases r <;> rfl

theorem run_push_heap (L : lua_State) (r : PushResult) :
    (run_push L r).state.conns = L.conns ∧ (run_push L r).state.next_ud = L.next_ud := by
  cases r <;> exact ⟨rfl, rfl⟩

theorem cookie_wait_finish_cookies (E : Extern) (K : Claimed) :
    (cookie_wait_finish E K).state.cookies = K.L.cookies := by
  unfold cookie_wait_finish
  split
  · simp [Ret.state, lua_xcb_push_generic_error_eq, lua_pushnil, push]
  · unfold call_push_func
    cases K.push_func with
    | lua_xcb_request_checker => rfl
    | reply_push addr => simp [run_push_cookies, log]

/-- On a valid connection the pending branch of `cookie_wait` is the transport
call, the reset of the cookie, and `cookie_wait_finish`, in this order. -/
theorem cookie_wait_pending_eq (E : Extern) (L : lua_State) (ud cud : Nat)
    (c : xcb_connection_t) (f : push_func_t) (extra : List LuaValue)
    (hf : (L.cookies ud).push_func = some f)
    (hown : L.cookie_env ud = .conn cud)
    (hc : L.conns cud = some c) :
    call E .wait (.cookie ud :: extra) L = cookie_wait_finish E
      { cookie_wait_transport E
          { L with stack := .conn cud :: .auto_ptr :: .auto_ptr ::
              (LuaValue.cookie ud :: extra).reverse } ud f c with
        L := set_push_func (cookie_wait_transport E
          { L with stack := .conn cud :: .auto_ptr :: .auto_ptr ::
              (LuaValue.cookie ud :: extra).reverse } ud f c).L ud none } := by
  simp [call, cookie_wait, lua_xcb_to_cookie, index2value, new_auto_ptr, push, hf,
    push_env_conn, hown, lua_xcb_to_conn, checkudata_conn, hc]

/-- A retired cookie answers `wait` with the used-twice error. -/
theorem cookie_wait_retired (E : Extern) (L : lua_State) (ud : Nat) (extra : List LuaValue)
    (hf : (L.cookies ud).push_func = none) :
    (call E .wait (.cookie ud :: extra) L).values
      = some [.nil, .string "Attempt to use a cookie twice."] := by
  simp [call, cookie_wait, lua_xcb_to_cookie, index2value, new_auto_ptr, push, hf,
    lua_pushnil, lua_pushliteral, Ret.values]

/-! ## Shared lemmas: what a call does to the connection handles -/

theorem keeps_null_of_eq (ud : Nat) (A B : lua_State) (h1 : B.conns = A.conns)
    (h2 : B.next_ud = A.next_ud) : keeps_null ud A B := by
  simp [keeps_null, h1, h2]

theorem push_event_heap (E : Extern) (L : lua_State) (event : xcb_generic_event_t) :
    (push_event E L event).state.conns = L.conns
      ∧ (push_event E L event).state.next_ud = L.next_ud := by
  unfold push_event push_event_table_entry
  cases L.event_table (event.response_type &&& XCB_EVENT_RESPONSE_TYPE_MASK) with
  | none =>
    simp [push, lua_isnil_m1, lua_pop, lua_createtable, lua_pushinteger, lua_setfield_m2,
      Ret.state]
  | some addr =>
    simp [push, lua_isnil_m1, run_push_heap, log]

theorem cookie_wait_finish_heap (E : Extern) (K : Claimed) :
    (cookie_wait_finish E K).state.conns = K.L.conns
      ∧ (cookie_wait_finish E K).state.next_ud = K.L.next_ud := by
  unfold cookie_wait_finish
  split
  · simp [Ret.state, lua_xcb_push_generic_error_eq, lua_pushnil, push]
  · unfold call_push_func
    cases K.push_func with
    | lua_xcb_request_checker => exact ⟨rfl, rfl⟩
    | reply_push addr => simp [run_push_heap, log]

theorem cookie_wait_transport_heap (E : Extern) (L : lua_State) (ud : Nat) (f : push_func_t)
    (c : xcb_connection_t) :
    (cookie_wait_transport E L ud f c).L.conns = L.conns
      ∧ (cookie_wait_transport E L ud f c).L.next_ud = L.next_ud := by
  unfold cookie_wait_transport
  repeat' first
    | exact ⟨rfl, rfl⟩
    | simp only []
    | split

theorem cookie_wait_heap (E : Extern) (L : lua_State) :
    (cookie_wait E L).state.conns = L.conns ∧ (cookie_wait E L).state.next_ud = L.next_ud := by
  unfold cookie_wait
  repeat' first
    | exact ⟨rfl, rfl⟩
    | simp only [cookie_wait_finish_heap, set_push_func, cookie_wait_transport_heap]
    | split

theorem cookie_gc_heap (L : lua_State) :
    (cookie_gc L).state.conns = L.conns ∧ (cookie_gc L).state.next_ud = L.next_ud := by
  unfold cookie_gc
  repeat' first
    | exact ⟨rfl, rfl⟩
    | simp only []
    | split

theorem call_event_source_heap (E : Extern) (L : lua_State) (f : event_source)
    (c : xcb_connection_t) :
    (call_event_source E L f c).1.conns = L.conns
      ∧ (call_event_source E L f c).1.next_ud = L.next_ud := by
  cases f <;> exact ⟨rfl, rfl⟩

theorem conn_get_event_heap (E : Extern) (L : lua_State) (f : event_source) (s : String) :
    (conn_get_event E L f s).state.conns = L.conns
      ∧ (conn_get_event E L f s).state.next_ud = L.next_ud := by
  simp only [conn_get_event]
  cases lua_xcb_check_conn (new_auto_ptr (lua_settop L 1)) 1 with
  | error msg => exact ⟨rfl, rfl⟩
  | ok c =>
    simp only
    have h1 := call_event_source_heap E (new_auto_ptr (lua_settop L 1)) f c
    generalize call_event_source E (new_auto_ptr (lua_settop L 1)) f c = p at h1
    obtain ⟨S, _ | event⟩ := p
    · simp only
      split <;> exact h1
    · simp only [push_event_heap]
      exact h1

theorem conn_gc_keeps_null (ud : Nat) (L : lua_State) : keeps_null ud L (conn_gc L).state := by
  unfold conn_gc
  split
  · exact keeps_null_of_eq _ _ _ rfl rfl
  · split
    · refine ⟨fun _ h => ?_, le_refl _⟩
      simp only [Ret.state, log, Function.update_apply]
      split
      · rfl
      · exact h
    · exact keeps_null_of_eq _ _ _ rfl rfl

theorem connect_keeps_null (E : Extern) (ud : Nat) (L : lua_State) :
    keeps_null ud L (connect E L).state := by
  unfold connect
  split
  · exact keeps_null_of_eq _ _ _ rfl rfl
  · have key : ∀ v : Option xcb_connection_t, ud < L.next_ud → L.conns ud = none →
        Function.update (Function.update L.conns L.next_ud none) L.next_ud v ud = none := by
      intro v h1 h2
      rw [Function.update_noteq (Nat.ne_of_lt h1), Function.update_noteq (Nat.ne_of_lt h1)]
      exact h2
    simp only
    split
    · exact ⟨key _, Nat.le_succ _⟩
    · split
      · exact ⟨key _, Nat.le_succ _⟩
      · exact ⟨key _, Nat.le_succ _⟩

theorem call_keeps_null (E : Extern) (op : Op) (args : List LuaValue) (ud : Nat)
    (L : lua_State) : keeps_null ud L (call E op args L).state := by
  cases op with
  | response_type =>
    apply keeps_null_of_eq <;> (simp only [call, response_type]; split <;> rfl)
  | is_valid =>
    apply keeps_null_of_eq <;> (simp only [call, conn_is_valid]; split <;> rfl)
  | disconnect => exact conn_gc_keeps_null ud { L with stack := args.reverse }
  | conn_gc => exact conn_gc_keeps_null ud { L with stack := args.reverse }
  | flush =>
    apply keeps_null_of_eq <;> (simp only [call, conn_flush]; split <;> rfl)
  | get_file_descriptor =>
    apply keeps_null_of_eq <;> (simp only [call, conn_get_file_descriptor]; split <;> rfl)
  | connection_has_error =>
    apply keeps_null_of_eq <;> (simp only [call, conn_has_error]; split <;> rfl)
  | wait_for_event =>
    exact keeps_null_of_eq _ _ _ (conn_get_event_heap _ _ _ _).1 (conn_get_event_heap _ _ _ _).2
  | poll_for_event =>
    exact keeps_null_of_eq _ _ _ (conn_get_event_heap _ _ _ _).1 (conn_get_event_heap _ _ _ _).2
  | connect => exact connect_keeps_null E ud { L with stack := args.reverse }
  | generate_id =>
    apply keeps_null_of_eq <;>
      (simp only [call, conn_generate_id]; split
       · rfl
       · split <;> rfl)
  | get_setup =>
    apply keeps_null_of_eq <;>
      (simp only [call, conn_get_setup]; split
       · rfl
       · rename_i c _
         cases E.lua_xcb_push_setup _ c <;> rfl)
  | conn_tostring =>
    apply keeps_null_of_eq <;> (simp only [call, conn_tostring]; split <;> rfl)
  | cookie_tostring =>
    apply keeps_null_of_eq <;>
      (simp only [call, cookie_tostring]; split
       · rfl
       · split <;> rfl)
  | cookie_gc => exact keeps_null_of_eq _ _ _ (cookie_gc_heap _).1 (cookie_gc_heap _).2
  | discard => exact keeps_null_of_eq _ _ _ (cookie_gc_heap _).1 (cookie_gc_heap _).2
  | wait => exact keeps_null_of_eq _ _ _ (cookie_wait_heap _ _).1 (cookie_wait_heap _ _).2
  | lua_xcb_new_cookie conn_index =>
    simp only [call, lua_xcb_new_cookie]
    cases lua_xcb_check_conn { L with stack := args.reverse }
        (abs_index E { L with stack := args.reverse } conn_index) with
    | error msg => exact keeps_null_of_eq _ _ _ rfl rfl
    | ok c => exact ⟨fun _ h => h, Nat.le_succ _⟩
  | lua_xcb_reset_cookie index =>
    apply keeps_null_of_eq <;> (simp only [call, lua_xcb_reset_cookie]; split <;> rfl)

theorem run_keeps_null (E : Extern) (ops : List (Op × List LuaValue)) (ud : Nat) :
    ∀ L : lua_State, ud < L.next_ud → L.conns ud = none →
      (run E ops L).conns ud = none ∧ ud < (run E ops L).next_ud := by
  induction ops with
  | nil => intro L h1 h2; exact ⟨h2, h1⟩
  | cons x rest ih =>
    intro L h1 h2
    obtain ⟨op, args⟩ := x
    have hk := call_keeps_null E op args ud L
    exact ih _ (Nat.lt_of_lt_of_le h1 hk.2) (hk.1 h1 h2)

theorem conn_gc_null (E : Extern) (op : Op) (h : op = .disconnect ∨ op = .conn_gc)
    (L : lua_State) (ud : Nat) (hnull : L.conns ud = none) :
    (call E op [.conn ud] L).state.conns = L.conns
      ∧ (call E op [.conn ud] L).state.trace = L.trace
      ∧ (call E op [.conn ud] L).state.next_ud = L.next_ud := by
  rcases h with h | h <;> subst h <;>
    simp [call, conn_gc, checkudata_conn, index2value, hnull, Ret.state]

theorem conn_gc_first (E : Extern) (op : Op) (h : op = .disconnect ∨ op = .conn_gc)
    (L : lua_State) (ud : Nat) :
    (call E op [.conn ud] L).state.conns ud = none
      ∧ (call E op [.conn ud] L).state.trace =
          (match L.conns ud with
           | some c => L.trace ++ [.puts "GCing conn.", .xcb_disconnect c]
           | none => L.trace)
      ∧ (call E op [.conn ud] L).state.next_ud = L.next_ud := by
  cases hc : L.conns ud <;> rcases h with h | h <;> subst h <;>
    simp [call, conn_gc, checkudata_conn, index2value, hc, Ret.state, log]

theorem run_conn_gc_null (E : Extern) (ud : Nat) (ds : List Op)
    (hds : ∀ op ∈ ds, op = .disconnect ∨ op = .conn_gc) :
    ∀ L : lua_State, L.conns ud = none →
      (run E (ds.map (fun op => (op, [LuaValue.conn ud]))) L).conns ud = none
      ∧ (run E (ds.map (fun op => (op, [LuaValue.conn ud]))) L).trace = L.trace
      ∧ (run E (ds.map (fun op => (op, [LuaValue.conn ud]))) L).next_ud = L.next_ud := by
  induction ds with
  | nil => intro L h; exact ⟨h, rfl, rfl⟩
  | cons d rest ih =>
    intro L h
    have hd := conn_gc_null E d (hds d (List.mem_cons_self _ _)) L ud h
    have hr := ih (fun op hop => hds op (List.mem_cons_of_mem _ hop))
      (call E d [.conn ud] L).state (by rw [hd.1]; exact h)
    simp only [List.map_cons, run]
    exact ⟨hr.1, hr.2.1.trans hd.2.1, hr.2.2.trans hd.2.2⟩

theorem is_valid_null (E : Extern) (L : lua_State) (ud : Nat) (h : L.conns ud = none) :
    (call E .is_valid [.conn ud] L).values = some [.bool false] := by
  simp [call, conn_is_valid, checkudata_conn, index2value, h, lua_pushboolean, push, Ret.values]

/-! ## C1: resolving a cookie twice -/

/-- C1, as stated, fails: a pending cookie whose connection handle is NULL
stays pending after `cookie:wait()`, so the second call returns the
closed-connection error again and not the used-twice error. -/
theorem cookie_wait_twice_closed_counterexample :
    (call quiet .wait [.cookie 1]
        (call quiet .wait [.cookie 1] (sample none (some .lua_xcb_request_checker))).state).values
      = some [.nil, .string "Attempt to use cookie from a closed display."]
    ∧ (call quiet .wait [.cookie 1]
        (call quiet .wait [.cookie 1] (sample none (some .lua_xcb_request_checker))).state).values
      ≠ some [.nil, .string "Attempt to use a cookie twice."]
    ∧ lua_xcb_cookie_pending ((call quiet .wait [.cookie 1]
        (sample none (some .lua_xcb_request_checker))).state.cookies 1) = true := by
  refine ⟨rfl, ?_, rfl⟩
  simp [call, cookie_wait, lua_xcb_to_cookie, index2value, new_auto_ptr, push, push_env_conn,
    lua_xcb_to_conn, checkudata_conn, lua_pushnil, lua_pushliteral, Ret.values, Ret.state, sample]

/-- C1, amended: when `cookie:wait()` is called twice in a row on a cookie
owned by connection handle `cud`, the second call returns nil and the
used-twice error whenever the first call found the cookie retired or the
connection valid, whatever the first call returned or raised; when the first
call found the cookie pending on a NULL connection, the second call returns
nil and the closed-connection error again. -/
theorem cookie_wait_twice (E : Extern) (L : lua_State) (ud cud : Nat)
    (extra extra2 : List LuaValue)
    (hown : L.cookie_env ud = .conn cud) :
    (call E .wait (.cookie ud :: extra2) (call E .wait (.cookie ud :: extra) L).state).values
      = some [.nil, .string
          (if lua_xcb_cookie_pending (L.cookies ud) = true ∧ L.conns cud = none
           then "Attempt to use cookie from a closed display."
           else "Attempt to use a cookie twice.")] := by
  cases hf : (L.cookies ud).push_func with
  | none =>
    have h1 : (call E .wait (.cookie ud :: extra) L).state.cookies = L.cookies := by
      simp [call, cookie_wait, lua_xcb_to_cookie, index2value, new_auto_ptr, push, hf,
        lua_pushnil, lua_pushliteral, Ret.state]
    rw [cookie_wait_retired _ _ _ _ (by rw [h1]; exact hf)]
    simp [lua_xcb_cookie_pending, hf]
  | some f =>
    cases hc : L.conns cud with
    | none =>
      simp [call, cookie_wait, lua_xcb_to_cookie, index2value, new_auto_ptr, push, hf,
        push_env_conn, hown, lua_xcb_to_conn, checkudata_conn, lua_pushnil, lua_pushliteral,
        Ret.values, Ret.state, lua_xcb_cookie_pending, hc]
    | some c =>
      have h1 : ((call E .wait (.cookie ud :: extra) L).state.cookies ud).push_func = none := by
        rw [cookie_wait_pending_eq E L ud cud c f extra hf hown hc, cookie_wait_finish_cookies]
        simp [set_push_func]
      rw [cookie_wait_retired _ _ _ _ h1]
      simp [lua_xcb_cookie_pending, hf]

/-- C1, amended, on a valid connection whose reply push function raises in the
first call: the second call returns the used-twice error. -/
theorem cookie_wait_twice_witness :
    (sample (some 9) (some (.reply_push 0))).cookie_env 1 = .conn 0
    ∧ (call failing .wait [.cookie 1]
        (call failing .wait [.cookie 1] (sample (some 9) (some (.reply_push 0)))).state).values
      = some [.nil, .string "Attempt to use a cookie twice."] :=
  ⟨rfl, cookie_wait_twice failing (sample (some 9) (some (.reply_push 0))) 1 0 [] [] rfl⟩

/-! ## C2: resolving against a closed connection -/

/-- C2: for a pending cookie whose owning connection handle is NULL,
`cookie:wait()` returns nil and the closed-connection message, and the trace is
unchanged: no libxcb function and no push function is called. -/
theorem cookie_wait_closed_connection (E : Extern) (L : lua_State) (ud cud : Nat)
    (f : push_func_t) (extra : List LuaValue)
    (hf : (L.cookies ud).push_func = some f)
    (hown : L.cookie_env ud = .conn cud)
    (hc : L.conns cud = none) :
    (call E .wait (.cookie ud :: extra) L).values
        = some [.nil, .string "Attempt to use cookie from a closed display."]
      ∧ (call E .wait (.cookie ud :: extra) L).state.trace = L.trace := by
  simp [call, cookie_wait, lua_xcb_to_cookie, index2value, new_auto_ptr, push, hf, push_env_conn,
    hown, lua_xcb_to_conn, checkudata_conn, hc, lua_pushnil, lua_pushliteral, Ret.values,
    Ret.state]

/-- C2 on the sample cookie with a reply push function and a NULL connection. -/
theorem cookie_wait_closed_connection_witness :
    ((sample none (some (.reply_push 0))).cookies 1).push_func = some (.reply_push 0)
    ∧ (sample none (some (.reply_push 0))).cookie_env 1 = .conn 0
    ∧ (sample none (some (.reply_push 0))).conns 0 = none
    ∧ (call failing .wait [.cookie 1] (sample none (some (.reply_push 0)))).values
        = some [.nil, .string "Attempt to use cookie from a closed display."]
    ∧ (call failing .wait [.cookie 1] (sample none (some (.reply_push 0)))).state.trace = [] :=
  ⟨rfl, rfl, rfl,
    cookie_wait_closed_connection failing (sample none (some (.reply_push 0))) 1 0
      (.reply_push 0) [] rfl rfl rfl⟩

/-! ## C3: discard is idempotent -/

/-- C3: for a cookie owned by connection handle `cud`, running
`cookie:discard()` (or `__gc`) twice leaves the same cookie structs and the
same trace as running it once; the first run appends exactly one
`xcb_discard_reply` with the cookie's sequence number when the cookie was
pending and the connection valid, and nothing when the connection was NULL or
the cookie retired; afterwards the cookie is retired. -/
theorem cookie_discard_idempotent (E : Extern) (L : lua_State) (ud cud : Nat)
    (extra extra2 : List LuaValue) (op1 op2 : Op)
    (h1 : op1 = .discard ∨ op1 = .cookie_gc) (h2 : op2 = .discard ∨ op2 = .cookie_gc)
    (hown : L.cookie_env ud = .conn cud) :
    let once := (call E op1 (.cookie ud :: extra) L).state
    let twice := (call E op2 (.cookie ud :: extra2) once).state
    twice.cookies = once.cookies
    ∧ twice.trace = once.trace
    ∧ count_discard twice.trace = count_discard once.trace
    ∧ once.trace =
        (match (L.cookies ud).push_func, L.conns cud with
         | some _, some c => L.trace ++ [.xcb_discard_reply c (L.cookies ud).sequence]
         | _, _ => L.trace)
    ∧ count_discard once.trace = count_discard L.trace +
        (if lua_xcb_cookie_pending (L.cookies ud) = true ∧ L.conns cud ≠ none then 1 else 0)
    ∧ lua_xcb_cookie_pending (once.cookies ud) = false := by
  have e1 : call E op1 (.cookie ud :: extra) L
      = cookie_gc { L with stack := (LuaValue.cookie ud :: extra).reverse } := by
    rcases h1 with h | h <;> subst h <;> rfl
  have e2 : ∀ S, call E op2 (.cookie ud :: extra2) S
      = cookie_gc { S with stack := (LuaValue.cookie ud :: extra2).reverse } := by
    intro S
    rcases h2 with h | h <;> subst h <;> rfl
  simp only [e1, e2]
  cases hf : (L.cookies ud).push_func with
  | none =>
    simp [cookie_gc, lua_xcb_to_cookie, index2value, lua_xcb_cookie_pending, hf, Ret.state]
  | some f =>
    cases hc : L.conns cud with
    | none =>
      simp [cookie_gc, lua_xcb_to_cookie, index2value, lua_xcb_cookie_pending, hf, Ret.state,
        push_env_conn, push, hown, lua_xcb_to_conn, checkudata_conn, hc, set_push_func]
    | some c =>
      simp [cookie_gc, lua_xcb_to_cookie, index2value, lua_xcb_cookie_pending, hf, Ret.state,
        push_env_conn, push, hown, lua_xcb_to_conn, checkudata_conn, hc, set_push_func, log,
        count_discard, List.filter_append]

/-- C3 on the sample cookie, pending on a valid connection: `discard` then
`__gc` make one `xcb_discard_reply 9 5` in all. -/
theorem cookie_discard_idempotent_witness :
    (sample (some 9) (some (.reply_push 0))).cookie_env 1 = .conn 0
    ∧ (call quiet .cookie_gc [.cookie 1]
        (call quiet .discard [.cookie 1] (sample (some 9) (some (.reply_push 0)))).state).state.trace
      = (call quiet .discard [.cookie 1] (sample (some 9) (some (.reply_push 0)))).state.trace
    ∧ (call quiet .discard [.cookie 1] (sample (some 9) (some (.reply_push 0)))).state.trace
      = [.xcb_discard_reply 9 5] :=
  ⟨rfl,
    (cookie_discard_idempotent quiet (sample (some 9) (some (.reply_push 0))) 1 0 [] []
      .discard .cookie_gc (Or.inl rfl) (Or.inr rfl) rfl).2.1,
    (cookie_discard_idempotent quiet (sample (some 9) (some (.reply_push 0))) 1 0 [] []
      .discard .cookie_gc (Or.inl rfl) (Or.inr rfl) rfl).2.2.2.1⟩

/-! ## C4: the result of resolving a pending cookie -/

/-- C4, as stated, fails: when the transport rejects a request with an error
code for which `xcb_event_get_error_label` returns NULL (here the extension
code 200), `lua_pushstring` pushes nil, no `error_label` is stored, and the
table `cookie:wait()` returns beside nil has seven fields, not eight. -/
theorem cookie_wait_error_label_counterexample :
    failing_extension.xcb_event_get_error_label 200 = none
    ∧ (call failing_extension .wait [.cookie 1]
        (sample (some 9) (some .lua_xcb_request_checker))).values
      = some [.nil, .table [("response_type", .integer 0), ("error_code", .integer 200),
          ("sequence", .integer 5), ("resource_id", .integer 77), ("minor_code", .integer 0),
          ("major_code", .integer 130), ("full_sequence", .integer 5)]] :=
  ⟨rfl, rfl⟩

/-- C4, amended: for a pending cookie on a valid connection, `cookie:wait()`
makes one transport call with the cookie's sequence number,
`xcb_request_check` when `push_func` is `lua_xcb_request_checker` and
`xcb_wait_for_reply` otherwise. If that call gave an error the result is nil
and a table holding the error's seven members and, when
`xcb_event_get_error_label` has a label for the error code, that label as an
eighth field `error_label` (no such field when the label is NULL); no push
function is called. Otherwise a request-checker cookie returns `true`, and any
other cookie returns what its push function returns on the reply (or raises
what it raises). -/
theorem cookie_wait_result (E : Extern) (L : lua_State) (ud cud : Nat) (c : xcb_connection_t)
    (f : push_func_t) (extra : List LuaValue)
    (hf : (L.cookies ud).push_func = some f)
    (hown : L.cookie_env ud = .conn cud)
    (hc : L.conns cud = some c) :
    let seq := (L.cookies ud).sequence
    let R := call E .wait (.cookie ud :: extra) L
    match f with
    | .lua_xcb_request_checker =>
      (match E.xcb_request_check L.trace c seq with
       | some e =>
         R.values
           = some [.nil, generic_error_table (E.xcb_event_get_error_label e.error_code) e]
         ∧ R.state.trace = L.trace ++ [.xcb_request_check c seq]
       | none =>
         R.values = some [.bool true]
         ∧ R.state.trace = L.trace ++ [.xcb_request_check c seq,
             .push_func .lua_xcb_request_checker none])
    | .reply_push addr =>
      (match E.xcb_wait_for_reply L.trace c seq with
       | (_, some e) =>
         R.values
           = some [.nil, generic_error_table (E.xcb_event_get_error_label e.error_code) e]
         ∧ R.state.trace = L.trace ++ [.xcb_wait_for_reply c seq]
       | (reply, none) =>
         let r := E.reply_push addr (L.trace ++ [.xcb_wait_for_reply c seq]) reply
         R.state.trace = L.trace ++ [.xcb_wait_for_reply c seq,
             .push_func (.reply_push addr) reply]
         ∧ (∃ S, R = run_push S r)
         ∧ (∀ vals n, r = .pushed vals n → n ≤ vals.length →
             R.values = some (vals.drop (vals.length - n)))
         ∧ (∀ msg, r = .raised msg → ∃ S, R = .raises S msg)) := by
  intro seq R
  have hR := cookie_wait_pending_eq E L ud cud c f extra hf hown hc
  cases f with
  | lua_xcb_request_checker =>
    simp only
    cases he : E.xcb_request_check L.trace c seq with
    | some e =>
      simp only [seq] at he
      simp [R, hR, cookie_wait_transport, hf, he, cookie_wait_finish, set_push_func, log,
        lua_xcb_push_generic_error_eq, lua_pushnil, push, Ret.values, Ret.state, seq]
    | none =>
      simp only [seq] at he
      simp [R, hR, cookie_wait_transport, hf, he, cookie_wait_finish, set_push_func, log,
        call_push_func, lua_xcb_request_checker, lua_pushboolean, push, Ret.values, Ret.state,
        seq]
  | reply_push addr =>
    simp only
    rcases he : E.xcb_wait_for_reply L.trace c seq with ⟨reply, _ | e⟩
    · simp only [seq] at he
      have hR2 : R = run_push
          (log (set_push_func (log { L with stack := .conn cud :: .auto_ptr :: .auto_ptr ::
              (LuaValue.cookie ud :: extra).reverse }
                (.xcb_wait_for_reply c (L.cookies ud).sequence))
            ud none) (.push_func (.reply_push addr) reply))
          (E.reply_push addr (L.trace ++ [.xcb_wait_for_reply c (L.cookies ud).sequence])
            reply) := by
        simp [R, hR, cookie_wait_transport, hf, he, cookie_wait_finish, call_push_func, log,
          set_push_func]
      refine ⟨?_, ⟨_, hR2⟩, ?_, ?_⟩
      · rw [hR2]
        cases E.reply_push addr (L.trace ++ [.xcb_wait_for_reply c (L.cookies ud).sequence])
            reply <;>
          simp [run_push, Ret.state, log, set_push_func, seq]
      · intro vals n hv hn
        simp only [seq] at hv
        rw [hR2, hv, run_push_values _ _ _ hn]
      · intro msg hm
        simp only [seq] at hm
        rw [hR2, hm]
        exact ⟨_, rfl⟩
    · simp only [seq] at he
      simp [R, hR, cookie_wait_transport, hf, he, cookie_wait_finish, set_push_func, log,
        lua_xcb_push_generic_error_eq, lua_pushnil, push, Ret.values, Ret.state, seq]

/-- C4, amended, on the sample request-checker cookie when the transport
rejects the request with the core error code 3: nil and the decoded error with
its label, after the one call `xcb_request_check 9 5`. -/
theorem cookie_wait_result_witness :
    ((sample (some 9) (some .lua_xcb_request_checker)).cookies 1).push_func
      = some .lua_xcb_request_checker
    ∧ (sample (some 9) (some .lua_xcb_request_checker)).cookie_env 1 = .conn 0
    ∧ (sample (some 9) (some .lua_xcb_request_checker)).conns 0 = some 9
    ∧ (call failing .wait [.cookie 1] (sample (some 9) (some .lua_xcb_request_checker))).values
      = some [.nil, .table [("response_type", .integer 0), ("error_code", .integer 3),
          ("sequence", .integer 5), ("resource_id", .integer 77), ("minor_code", .integer 0),
          ("major_code", .integer 8), ("full_sequence", .integer 5),
          ("error_label", .string "BadWindow")]]
    ∧ (call failing .wait [.cookie 1]
        (sample (some 9) (some .lua_xcb_request_checker))).state.trace
      = [.xcb_request_check 9 5] :=
  ⟨rfl, rfl, rfl,
    cookie_wait_result failing (sample (some 9) (some .lua_xcb_request_checker)) 1 0 9
      .lua_xcb_request_checker [] rfl rfl rfl⟩

/-! ## C5: the cookie is retired before decoding -/

/-- C5: for a pending cookie on a valid connection, `cookie:wait()` is
`cookie_wait_finish` (the decoding of the error, or the call of the push
function) run on a state in which the one transport call has been made and
the cookie is already retired; the cookie is retired in the state in which
`cookie:wait()` ends, also when the push function raises. -/
theorem cookie_wait_retires_before_decoding (E : Extern) (L : lua_State) (ud cud : Nat)
    (c : xcb_connection_t) (f : push_func_t) (extra : List LuaValue)
    (hf : (L.cookies ud).push_func = some f)
    (hown : L.cookie_env ud = .conn cud)
    (hc : L.conns cud = some c) :
    let R := call E .wait (.cookie ud :: extra) L
    let transport_call : Call :=
      if f = .lua_xcb_request_checker then .xcb_request_check c (L.cookies ud).sequence
      else .xcb_wait_for_reply c (L.cookies ud).sequence
    (∃ K : Claimed,
        R = cookie_wait_finish E K
        ∧ K.L.trace = L.trace ++ [transport_call]
        ∧ lua_xcb_cookie_pending (K.L.cookies ud) = false
        ∧ K.push_func = f)
    ∧ lua_xcb_cookie_pending (R.state.cookies ud) = false
    ∧ (∀ S msg, R = .raises S msg → lua_xcb_cookie_pending (S.cookies ud) = false) := by
  intro R transport_call
  have hR : R = _ := cookie_wait_pending_eq E L ud cud c f extra hf hown hc
  have hfin : lua_xcb_cookie_pending (R.state.cookies ud) = false := by
    rw [hR, cookie_wait_finish_cookies]
    simp [set_push_func, lua_xcb_cookie_pending]
  refine ⟨⟨_, hR, ?_, ?_, ?_⟩, hfin, ?_⟩
  · cases f <;> simp [cookie_wait_transport, hf, set_push_func, log, transport_call]
  · simp [set_push_func, lua_xcb_cookie_pending]
  · cases f <;> simp [cookie_wait_transport, hf]
  · intro S msg hS
    rw [hS] at hfin
    exact hfin

/-- C5 on the sample cookie when its reply push function raises: the call
raises and leaves the cookie retired. -/
theorem cookie_wait_retires_before_decoding_witness :
    ((sample (some 9) (some (.reply_push 0))).cookies 1).push_func = some (.reply_push 0)
    ∧ (sample (some 9) (some (.reply_push 0))).cookie_env 1 = .conn 0
    ∧ (sample (some 9) (some (.reply_push 0))).conns 0 = some 9
    ∧ (call failing .wait [.cookie 1] (sample (some 9) (some (.reply_push 0)))).values = none
    ∧ lua_xcb_cookie_pending ((call failing .wait [.cookie 1]
        (sample (some 9) (some (.reply_push 0)))).state.cookies 1) = false :=
  ⟨rfl, rfl, rfl, rfl,
    (cookie_wait_retires_before_decoding failing (sample (some 9) (some (.reply_push 0))) 1 0 9
      (.reply_push 0) [] rfl rfl rfl).2.1⟩

/-! ## C6: event dispatch -/

/-- C6: `push_event` reads the event table under `response_type & 0x7F` only.
When nothing is registered there the result is one table with exactly the
three fields `response_type` (unmasked), `sequence` and `full_sequence`, and no
call is made; when an event function is registered there the result is what
that function returns on the raw event (or raises). -/
theorem push_event_dispatch (E : Extern) (L : lua_State) (event : xcb_generic_event_t) :
    let R := push_event E L event
    match L.event_table (event.response_type &&& 0x7F) with
    | none =>
      R.values = some [.table [("response_type", .integer event.response_type),
        ("sequence", .integer event.sequence), ("full_sequence", .integer event.full_sequence)]]
      ∧ R.state.trace = L.trace
    | some addr =>
      let r := E.event_func addr L.trace event
      R = run_push (log (push L (.event_func addr)) (.event_func addr event)) r
      ∧ R.state.trace = L.trace ++ [.event_func addr event]
      ∧ (∀ vals n, r = .pushed vals n → n ≤ vals.length →
          R.values = some (vals.drop (vals.length - n)))
      ∧ (∀ msg, r = .raised msg → ∃ S, R = .raises S msg) := by
  intro R
  cases h : L.event_table (event.response_type &&& 0x7F) with
  | none =>
    simp [R, push_event, push_event_table_entry, XCB_EVENT_RESPONSE_TYPE_MASK, h, push,
      lua_isnil_m1, lua_pop, lua_createtable, lua_pushinteger, lua_setfield_m2, setfield_fields,
      Ret.values, Ret.state]
  | some addr =>
    have hR : R = run_push (log (push L (.event_func addr)) (.event_func addr event))
        (E.event_func addr L.trace event) := by
      simp [R, push_event, push_event_table_entry, XCB_EVENT_RESPONSE_TYPE_MASK, h, push,
        lua_isnil_m1, log]
    refine ⟨hR, ?_, ?_, ?_⟩
    · rw [hR]
      cases E.event_func addr L.trace event <;> simp [run_push, Ret.state, log, push]
    · intro vals n hv hn
      rw [hR, hv, run_push_values _ _ _ hn]
    · intro msg hm
      rw [hR, hm]
      exact ⟨_, rfl⟩

/-! ## C7: disconnect is idempotent and monotonic -/

/-- C7: for an existing connection handle `ud` and any non-empty run of
`conn:disconnect()` / `__gc` calls on it, `xcb_disconnect` is called exactly
once (on the stored pointer) if the handle was valid and never if it was
NULL; the handle is NULL afterwards; and it stays NULL, with `is_valid`
returning false, after any further run of calls of this module. -/
theorem disconnect_idempotent_monotonic (E : Extern) (L : lua_State) (ud : Nat) (ds : List Op)
    (ops : List (Op × List LuaValue))
    (hds : ∀ op ∈ ds, op = .disconnect ∨ op = .conn_gc)
    (hne : ds ≠ [])
    (halloc : ud < L.next_ud) :
    let D := run E (ds.map (fun op => (op, [LuaValue.conn ud]))) L
    D.conns ud = none
    ∧ D.trace =
        (match L.conns ud with
         | some c => L.trace ++ [.puts "GCing conn.", .xcb_disconnect c]
         | none => L.trace)
    ∧ count_disconnect D.trace =
        count_disconnect L.trace + (if L.conns ud = none then 0 else 1)
    ∧ (call E .is_valid [.conn ud] D).values = some [.bool false]
    ∧ (run E ops D).conns ud = none
    ∧ (call E .is_valid [.conn ud] (run E ops D)).values = some [.bool false] := by
  intro D
  obtain ⟨d, rest, rfl⟩ := List.exists_cons_of_ne_nil hne
  have hf := conn_gc_first E d (hds d (List.mem_cons_self _ _)) L ud
  have hr := run_conn_gc_null E ud rest (fun op hop => hds op (List.mem_cons_of_mem _ hop))
    (call E d [.conn ud] L).state hf.1
  have hD : D = run E (rest.map (fun op => (op, [LuaValue.conn ud])))
      (call E d [.conn ud] L).state := rfl
  have h1 : D.conns ud = none := by rw [hD]; exact hr.1
  have h2 : D.trace = (match L.conns ud with
         | some c => L.trace ++ [.puts "GCing conn.", .xcb_disconnect c]
         | none => L.trace) := by rw [hD, hr.2.1]; exact hf.2.1
  have h3 : ud < D.next_ud := by rw [hD, hr.2.2, hf.2.2]; exact halloc
  have h4 := run_keeps_null E ops ud D h3 h1
  refine ⟨h1, h2, ?_, is_valid_null E D ud h1, h4.1, is_valid_null E _ ud h4.1⟩
  rw [h2]
  cases L.conns ud <;> simp [count_disconnect, List.filter_append]

/-- C7 on the sample connection: `disconnect`, `__gc`, `disconnect`, then a
new `connect` and a `flush`; one `xcb_disconnect 9` is made and the handle
stays NULL. -/
theorem disconnect_idempotent_monotonic_witness :
    (∀ op ∈ [Op.disconnect, Op.conn_gc, Op.disconnect], op = .disconnect ∨ op = .conn_gc)
    ∧ [Op.disconnect, Op.conn_gc, Op.disconnect] ≠ []
    ∧ 0 < (sample (some 9) none).next_ud
    ∧ (run quiet ([Op.disconnect, Op.conn_gc, Op.disconnect].map
        (fun op => (op, [LuaValue.conn 0]))) (sample (some 9) none)).trace
      = [.puts "GCing conn.", .xcb_disconnect 9]
    ∧ (run quiet [(.connect, []), (.flush, [.conn 0])]
        (run quiet ([Op.disconnect, Op.conn_gc, Op.disconnect].map
          (fun op => (op, [LuaValue.conn 0]))) (sample (some 9) none))).conns 0 = none :=
  ⟨by simp, by simp, by decide,
    (disconnect_idempotent_monotonic quiet (sample (some 9) none) 0
      [Op.disconnect, Op.conn_gc, Op.disconnect] [(.connect, []), (.flush, [.conn 0])]
      (by simp) (by simp) (by decide)).2.1,
    (disconnect_idempotent_monotonic quiet (sample (some 9) none) 0
      [Op.disconnect, Op.conn_gc, Op.disconnect] [(.connect, []), (.flush, [.conn 0])]
      (by simp) (by simp) (by decide)).2.2.2.2.1⟩

/-! ## C8: a new cookie -/

/-- C8, as stated, fails: on a valid connection `lua_xcb_new_cookie` succeeds
and the cookie it returns has `push_func = NULL`, so `lua_xcb_cookie_pending`
is false for it. -/
theorem new_cookie_pending_counterexample :
    ({ sample (some 9) none with stack := [.conn 0] } : lua_State).conns 0 = some 9
    ∧ (match lua_xcb_new_cookie quiet { sample (some 9) none with stack := [.conn 0] } 1 with
       | .ok (S, ud) => lua_xcb_cookie_pending (S.cookies ud) = false
       | .error _ => False) := by
  refine ⟨rfl, ?_⟩
  simp [lua_xcb_new_cookie, lua_xcb_check_conn, lua_xcb_to_conn, checkudata_conn, abs_index,
    index2value, sample, push, lua_xcb_cookie_pending]

/-- C8, amended: on a valid connection `lua_xcb_new_cookie` succeeds, and the
cookie it returns has sequence 0 and `push_func = NULL`, so it is not pending
(not in use yet); its environment table holds the connection object, and the
cookie is on top of the stack. -/
theorem new_cookie_not_pending (E : Extern) (L : lua_State) (conn_index : Int) (cud : Nat)
    (c : xcb_connection_t)
    (hidx : index2value L (abs_index E L conn_index) = some (.conn cud))
    (hc : L.conns cud = some c) :
    match lua_xcb_new_cookie E L conn_index with
    | .ok (S, ud) =>
      lua_xcb_cookie_pending (S.cookies ud) = false
      ∧ (S.cookies ud).push_func = none
      ∧ (S.cookies ud).sequence = 0
      ∧ S.cookie_env ud = .conn cud
      ∧ S.stack = .cookie ud :: L.stack
    | .error _ => False := by
  simp [lua_xcb_new_cookie, lua_xcb_check_conn, lua_xcb_to_conn, checkudata_conn, hidx, hc,
    lua_xcb_cookie_pending, push]

/-- C8, amended, for the connection at index -1 of a one-slot stack. -/
theorem new_cookie_not_pending_witness :
    index2value { sample (some 9) none with stack := [.conn 0] }
        (abs_index quiet { sample (some 9) none with stack := [.conn 0] } (-1))
      = some (.conn 0)
    ∧ ({ sample (some 9) none with stack := [.conn 0] } : lua_State).conns 0 = some 9
    ∧ (match lua_xcb_new_cookie quiet { sample (some 9) none with stack := [.conn 0] } (-1) with
       | .ok (S, ud) =>
         lua_xcb_cookie_pending (S.cookies ud) = false
         ∧ (S.cookies ud).push_func = none
         ∧ (S.cookies ud).sequence = 0
         ∧ S.cookie_env ud = .conn 0
         ∧ S.stack = .cookie ud :: [.conn 0]
       | .error _ => False) :=
  ⟨rfl, rfl,
    new_cookie_not_pending quiet { sample (some 9) none with stack := [.conn 0] } (-1) 0 9
      (by rfl) rfl⟩

/-! ## C9: polling and waiting for an event -/

/-- C9: on a valid connection, when the transport has no event
`poll_for_event` returns the single value nil and `wait_for_event` returns nil
and an error message; when the transport has an event, both return what
`push_event` makes of it. -/
theorem get_event_result (E : Extern) (L : lua_State) (ud : Nat) (c : xcb_connection_t)
    (extra : List LuaValue) (hc : L.conns ud = some c) :
    let poll := call E .poll_for_event (.conn ud :: extra) L
    let wait := call E .wait_for_event (.conn ud :: extra) L
    (match E.xcb_poll_for_event L.trace c with
     | none => poll.values = some [.nil]
     | some event =>
       poll = push_event E { L with stack := [.auto_ptr, .conn ud],
                                    trace := L.trace ++ [.xcb_poll_for_event c] } event)
    ∧ (match E.xcb_wait_for_event L.trace c with
     | none => wait.values = some [.nil, .string "xcb_wait_for_event failed."]
     | some event =>
       wait = push_event E { L with stack := [.auto_ptr, .conn ud],
                                    trace := L.trace ++ [.xcb_wait_for_event c] } event) := by
  intro poll wait
  constructor
  · cases h : E.xcb_poll_for_event L.trace c <;>
    simp [poll, call, conn_poll_for_event, conn_get_event, lua_settop, new_auto_ptr, push,
      lua_xcb_check_conn, lua_xcb_to_conn, checkudata_conn, index2value, hc, call_event_source,
      h, log, lua_pushnil, Ret.values]
  · cases h : E.xcb_wait_for_event L.trace c <;>
    simp [wait, call, conn_wait_for_event, conn_get_event, lua_settop, new_auto_ptr, push,
      lua_xcb_check_conn, lua_xcb_to_conn, checkudata_conn, index2value, hc, call_event_source,
      h, log, lua_pushnil, lua_pushfstring, Ret.values]

/-- C9 on the sample connection with an empty event queue. -/
theorem get_event_result_witness :
    (sample (some 9) none).conns 0 = some 9
    ∧ (call quiet .poll_for_event [.conn 0] (sample (some 9) none)).values = some [.nil]
    ∧ (call quiet .wait_for_event [.conn 0] (sample (some 9) none)).values
      = some [.nil, .string "xcb_wait_for_event failed."] :=
  ⟨rfl, get_event_result quiet (sample (some 9) none) 0 9 [] rfl⟩

/-! ## C10: id generation -/

/-- C10: on a valid connection, for every 32-bit value `x` returned by
`xcb_generate_id`, `generate_id` returns nil and the message
"xcb_generate_id failed" if and only if `x` is `0xFFFFFFFF`, and returns the
single integer `x` otherwise. -/
theorem generate_id_sentinel (E : Extern) (L : lua_State) (ud : Nat) (c : xcb_connection_t)
    (extra : List LuaValue) (x : Nat) (hc : L.conns ud = some c)
    (hx : E.xcb_generate_id L.trace c = x) (h32 : x < 2 ^ 32) :
    let R := call E .generate_id (.conn ud :: extra) L
    (R.values = some [.nil, .string "xcb_generate_id failed"] ↔ x = 0xFFFFFFFF)
    ∧ (x ≠ 0xFFFFFFFF → R.values = some [.integer x]) := by
  intro R
  have hmod : x % 4294967296 = x := Nat.mod_eq_of_lt h32
  have hmodi : (x : Int) % 4294967296 = x := by omega
  by_cases hs : x = 4294967295
  · simp [R, call, conn_generate_id, lua_xcb_check_conn, lua_xcb_to_conn, checkudata_conn,
      index2value, hc, hx, hmod, hs, log, lua_pushnil, lua_pushliteral, push, Ret.values]
  · simp [R, call, conn_generate_id, lua_xcb_check_conn, lua_xcb_to_conn, checkudata_conn,
      index2value, hc, hx, hmod, hmodi, hs, log, lua_pushinteger, push, Ret.values]

/-- C10 when the transport returns the sentinel. -/
theorem generate_id_sentinel_witness :
    (sample (some 9) none).conns 0 = some 9
    ∧ failing.xcb_generate_id (sample (some 9) none).trace 9 = 0xFFFFFFFF
    ∧ 0xFFFFFFFF < 2 ^ 32
    ∧ ((call failing .generate_id [.conn 0] (sample (some 9) none)).values
        = some [.nil, .string "xcb_generate_id failed"] ↔ 0xFFFFFFFF = 0xFFFFFFFF) :=
  ⟨rfl, rfl, by decide,
    (generate_id_sentinel failing (sample (some 9) none) 0 9 [] 0xFFFFFFFF rfl rfl
      (by decide)).1⟩

end LuaXcb
